import Mathlib

/-!
Shallow embedding of the CRUD persistence/API layer of the python_learning
repository: the Flask user service (src/web_dev/flask_app/app.py), the FastAPI
user service (src/web_dev/fastapi_app/app.py) and the FastAPI quotes service
(src/web_dev/quotes_api/app.py).

Each handler is modelled as a pure function from the database state (a list of
rows plus the AUTOINCREMENT counter kept by sqlite_sequence) and the parsed
request payload to a response, the successor state, and two booleans recording
whether the handler opened a SQLite connection on that control path and whether
it called conn.close() before returning.  SQL statements are translated to the
corresponding list operations; the sqlite3.IntegrityError raised by the UNIQUE
constraints is modelled by testing the same condition the constraint tests.
-/

/-- Error outcomes the handlers surface: 400, 404, 409 and 500. -/
inductive ApiErr where
  | badRequest
  | notFound
  | conflict
  | internal
deriving DecidableEq

/-- Result of a FastAPI handler: a response body or an HTTPException. -/
inductive Res (α : Type) where
  | ok : α → Res α
  | err : ApiErr → Res α
deriving DecidableEq

/-- JSON scalar values appearing in the Flask response bodies. -/
inductive JVal where
  | s : String → JVal
  | n : Int → JVal
  | nul : JVal
deriving DecidableEq

/-- A JSON object body, as the ordered key/value list jsonify serialises. -/
abbrev JObj := List (String × JVal)

/-- Outcome of a FastAPI-style handler call: the result, the database state
after the call, and whether the handler opened and closed a connection on the
taken control path. -/
structure ApiResp (α : Type) (σ : Type) where
  res : Res α
  st : σ
  opened : Bool
  closed : Bool
deriving DecidableEq

/-- Outcome of a Flask handler call: body and HTTP status as returned by
jsonify, plus the state and connection bookkeeping. -/
structure FlaskResp (σ : Type) where
  body : JObj
  status : Nat
  st : σ
  opened : Bool
  closed : Bool
deriving DecidableEq

/-! ## Users store (shared by the Flask and FastAPI user services)

Table users (id INTEGER PRIMARY KEY AUTOINCREMENT, username TEXT NOT NULL
UNIQUE, email TEXT NOT NULL, age INTEGER, created_at TIMESTAMP).  The
created_at column is server-assigned and carried by no claim, so it is not
modelled.  nextId models the sqlite_sequence counter: AUTOINCREMENT hands out
max-so-far + 1 and never reuses an id. -/

structure UserRow where
  id : Nat
  username : String
  email : String
  age : Option Int
deriving DecidableEq

structure UsersDB where
  rows : List UserRow
  nextId : Nat
deriving DecidableEq

/-- SELECT * FROM users WHERE id = ? (first matching row). -/
def findUser (db : UsersDB) (uid : Nat) : Option UserRow :=
  db.rows.find? (fun r => r.id == uid)

/-- The condition under which INSERT INTO users violates the UNIQUE(username)
constraint and sqlite3 raises IntegrityError. -/
def usernameTaken (db : UsersDB) (un : String) : Bool :=
  db.rows.any (fun r => r.username == un)

/-- The user row serialised as the JSON object dict(row) produces. -/
def userRowJ (r : UserRow) : JObj :=
  [("id", JVal.n (Int.ofNat r.id)), ("username", JVal.s r.username),
   ("email", JVal.s r.email),
   ("age", match r.age with | some a => JVal.n a | none => JVal.nul)]

/-! ## Flask user service -/

/-- Parsed JSON payload of POST /api/users in the Flask app: a field is `some`
when the key is present in the request body. -/
structure FlaskUserCreate where
  username : Option String
  email : Option String
  age : Option Int
deriving DecidableEq

/-- Flask create_user (flask_app/app.py lines 51-90).  Validates presence of
the username and email keys before opening a connection; the IntegrityError
branch returns 409 without reaching conn.close(). -/
def flask_create_user (db : UsersDB) (data : FlaskUserCreate) : FlaskResp UsersDB :=
  match data.username, data.email with
  | some un, some em =>
    if usernameTaken db un then
      { body := [("error", JVal.s "Username already exists")], status := 409,
        st := db, opened := true, closed := false }
    else
      let row : UserRow := ⟨db.nextId, un, em, data.age⟩
      { body := [("message", JVal.s "User created successfully"),
                 ("user_id", JVal.n (Int.ofNat db.nextId))],
        status := 201,
        st := ⟨db.rows ++ [row], db.nextId + 1⟩, opened := true, closed := true }
  | _, _ =>
    { body := [("error", JVal.s "Username and email are required")], status := 400,
      st := db, opened := false, closed := false }

/-- Parsed JSON payload of PUT /api/users/id in the Flask app.  email is
`some v` when the email key is present; age is `some a` when the age key is
present (with a possibly-null value a); hasOtherKeys records whether the body
holds any further keys, which only affects the `if not data` truthiness test. -/
structure FlaskUserUpdate where
  email : Option String
  age : Option (Option Int)
  hasOtherKeys : Bool
deriving DecidableEq

/-- The request dict is falsy (None or empty) exactly when no key is present. -/
def FlaskUserUpdate.isEmptyData (u : FlaskUserUpdate) : Bool :=
  u.email.isNone && u.age.isNone && !u.hasOtherKeys

/-- The dynamically built SET clause applied to one row: only supplied fields
are rewritten. -/
def applyFlaskUpdate (r : UserRow) (u : FlaskUserUpdate) : UserRow :=
  { r with
    email := match u.email with | some e => e | none => r.email
    age := match u.age with | some a => a | none => r.age }

/-- Flask update_user (flask_app/app.py lines 126-178).  Both 400 branches run
before any connection is opened; on success the body carries only a message,
not the updated record. -/
def flask_update_user (db : UsersDB) (uid : Nat) (data : FlaskUserUpdate) : FlaskResp UsersDB :=
  if data.isEmptyData then
    { body := [("error", JVal.s "No data provided for update")], status := 400,
      st := db, opened := false, closed := false }
  else if data.email.isNone && data.age.isNone then
    { body := [("error", JVal.s "No valid fields to update")], status := 400,
      st := db, opened := false, closed := false }
  else
    match findUser db uid with
    | none =>
      { body := [("error", JVal.s "User not found")], status := 404,
        st := db, opened := true, closed := true }
    | some _ =>
      { body := [("message", JVal.s "User updated successfully")], status := 200,
        st := ⟨db.rows.map (fun r => if r.id == uid then applyFlaskUpdate r data else r), db.nextId⟩,
        opened := true, closed := true }

/-! ## FastAPI user service -/

/-- A raw POST /api/users payload before Pydantic validation. -/
structure RawUserPayload where
  username : Option String
  email : Option String
  age : Option Int
deriving DecidableEq

/-- A payload accepted by the UserCreate Pydantic model. -/
structure UserCreate where
  username : String
  email : String
  age : Option Int
deriving DecidableEq

/-- Pydantic validation declared on UserBase (fastapi_app/app.py lines 57-61):
username required with 3 <= length <= 50, email required (the EmailStr format
check is not modelled, only presence), age optional with 0 <= age <= 120.
A `none` result is the 422 validation failure FastAPI returns. -/
def validateUserCreate (p : RawUserPayload) : Option UserCreate :=
  match p.username, p.email with
  | some un, some em =>
    if 3 ≤ un.length && un.length ≤ 50 then
      match p.age with
      | some a => if 0 ≤ a && a ≤ 120 then some ⟨un, em, some a⟩ else none
      | none => some ⟨un, em, none⟩
    else none
  | _, _ => none

/-- FastAPI create_user (fastapi_app/app.py lines 86-120).  The IntegrityError
branch raises 409 without reaching conn.close(); on success the created row is
re-read with SELECT * WHERE id = lastrowid (a miss there would raise into the
generic 500 handler, again without closing). -/
def fastapi_create_user (db : UsersDB) (user : UserCreate) : ApiResp UserRow UsersDB :=
  if usernameTaken db user.username then
    { res := Res.err ApiErr.conflict, st := db, opened := true, closed := false }
  else
    let row : UserRow := ⟨db.nextId, user.username, user.email, user.age⟩
    let db2 : UsersDB := ⟨db.rows ++ [row], db.nextId + 1⟩
    match findUser db2 db.nextId with
    | some r => { res := Res.ok r, st := db2, opened := true, closed := true }
    | none => { res := Res.err ApiErr.internal, st := db2, opened := true, closed := false }

/-- Payload accepted by the UserUpdate Pydantic model, with Pydantic's
set/unset distinction: email is `some v` when set, age is `some a` when set
(to a possibly-null value). -/
structure UserUpdate where
  email : Option String
  age : Option (Option Int)
deriving DecidableEq

/-- user_update.dict with exclude_unset is empty exactly when no field was set. -/
def UserUpdate.isEmptyData (u : UserUpdate) : Bool :=
  u.email.isNone && u.age.isNone

/-- The dynamically built SET clause of the FastAPI update applied to a row. -/
def applyUserUpdate (r : UserRow) (u : UserUpdate) : UserRow :=
  { r with
    email := match u.email with | some e => e | none => r.email
    age := match u.age with | some a => a | none => r.age }

/-- FastAPI update_user (fastapi_app/app.py lines 171-233).  The empty-field
check runs before any connection is opened; on success the updated row is
re-read from the store and returned. -/
def fastapi_update_user (db : UsersDB) (uid : Nat) (u : UserUpdate) : ApiResp UserRow UsersDB :=
  if u.isEmptyData then
    { res := Res.err ApiErr.badRequest, st := db, opened := false, closed := false }
  else
    match findUser db uid with
    | none => { res := Res.err ApiErr.notFound, st := db, opened := true, closed := true }
    | some _ =>
      let db2 : UsersDB :=
        ⟨db.rows.map (fun r => if r.id == uid then applyUserUpdate r u else r), db.nextId⟩
      match findUser db2 uid with
      | some r => { res := Res.ok r, st := db2, opened := true, closed := true }
      | none => { res := Res.err ApiErr.internal, st := db2, opened := true, closed := false }

/-! ## Quotes store (quotes_api/app.py)

Table quotes (id INTEGER PRIMARY KEY AUTOINCREMENT, text NOT NULL, author NOT
NULL, source, category, created_at) and table favorites (id, quote_id NOT
NULL, user_id NOT NULL, created_at, UNIQUE(quote_id, user_id), FOREIGN KEY
quote_id REFERENCES quotes(id) ON DELETE CASCADE).  created_at is carried by
no claim and is not modelled. -/

structure QuoteRow where
  text : String
  author : String
  source : Option String
  category : Option String
  id : Nat
deriving DecidableEq

structure FavRow where
  id : Nat
  quoteId : Nat
  userId : String
deriving DecidableEq

structure QuotesDB where
  quotes : List QuoteRow
  favorites : List FavRow
  nextQuoteId : Nat
  nextFavId : Nat
deriving DecidableEq

/-- A quote as serialised in a response: the row plus the per-request
is_favorite annotation, which is never persisted. -/
structure QuoteOut where
  text : String
  author : String
  source : Option String
  category : Option String
  id : Nat
  isFavorite : Bool
deriving DecidableEq

/-- Annotate a stored row with an is_favorite flag for the response. -/
def QuoteRow.withFav (r : QuoteRow) (b : Bool) : QuoteOut :=
  ⟨r.text, r.author, r.source, r.category, r.id, b⟩

/-- The stored row underlying a response record. -/
def QuoteOut.toRow (o : QuoteOut) : QuoteRow :=
  ⟨o.text, o.author, o.source, o.category, o.id⟩

/-- SELECT * FROM quotes WHERE id = ? (first matching row). -/
def findQuote (db : QuotesDB) (qid : Nat) : Option QuoteRow :=
  db.quotes.find? (fun r => r.id == qid)

/-- SELECT 1 FROM favorites WHERE quote_id = ? AND user_id = ? is non-empty;
this is also the condition under which INSERT INTO favorites violates
UNIQUE(quote_id, user_id). -/
def favPair (db : QuotesDB) (qid : Nat) (uid : String) : Bool :=
  db.favorites.any (fun f => f.quoteId == qid && f.userId == uid)

/-- Number of favorites rows with the given (quote_id, user_id) pair; the
UNIQUE constraint keeps this at most 1 in any state SQLite can reach. -/
def favCount (db : QuotesDB) (qid : Nat) (uid : String) : Nat :=
  (db.favorites.filter (fun f => f.quoteId == qid && f.userId == uid)).length

/-- Python truthiness of the optional user_id query parameter: absent and the
empty string are both falsy. -/
def truthy : Option String → Bool
  | none => false
  | some s => !(s == "")

/-- Quotes payload accepted by the QuoteCreate Pydantic model (text and author
required and, for text, non-empty). -/
structure QuoteCreate where
  text : String
  author : String
  source : Option String
  category : Option String
deriving DecidableEq

/-- INSERT INTO quotes: the row takes the AUTOINCREMENT id and is appended. -/
def insertQuoteRow (db : QuotesDB) (q : QuoteCreate) : QuoteRow × QuotesDB :=
  let row : QuoteRow := ⟨q.text, q.author, q.source, q.category, db.nextQuoteId⟩
  (row, { db with quotes := db.quotes ++ [row], nextQuoteId := db.nextQuoteId + 1 })

/-- FastAPI get_all_quotes (quotes_api/app.py lines 212-247).  With a truthy
user_id each quote is flagged against that user's favorite set; otherwise
every quote is flagged is_favorite = false. -/
def get_all_quotes (db : QuotesDB) (userId : Option String) : ApiResp (List QuoteOut) QuotesDB :=
  let outs :=
    if truthy userId then
      db.quotes.map (fun q => q.withFav (favPair db q.id (userId.getD "")))
    else
      db.quotes.map (fun q => q.withFav false)
  { res := Res.ok outs, st := db, opened := true, closed := true }

/-- FastAPI get_quote (quotes_api/app.py lines 250-292). -/
def get_quote (db : QuotesDB) (qid : Nat) (userId : Option String) : ApiResp QuoteOut QuotesDB :=
  match findQuote db qid with
  | none => { res := Res.err ApiErr.notFound, st := db, opened := true, closed := true }
  | some q =>
    let fav := if truthy userId then favPair db qid (userId.getD "") else false
    { res := Res.ok (q.withFav fav), st := db, opened := true, closed := true }

/-- Payload accepted by the QuoteUpdate Pydantic model with the set/unset
distinction of dict(exclude_unset=True); the nullable source and category
columns may be set to null. -/
structure QuoteUpdate where
  text : Option String
  author : Option String
  source : Option (Option String)
  category : Option (Option String)
deriving DecidableEq

/-- quote_update.dict with exclude_unset is empty iff no field was set. -/
def QuoteUpdate.isEmptyData (u : QuoteUpdate) : Bool :=
  u.text.isNone && u.author.isNone && u.source.isNone && u.category.isNone

/-- The dynamically built SET clause applied to one quote row. -/
def applyQuoteUpdate (r : QuoteRow) (u : QuoteUpdate) : QuoteRow :=
  { r with
    text := match u.text with | some t => t | none => r.text
    author := match u.author with | some a => a | none => r.author
    source := match u.source with | some s => s | none => r.source
    category := match u.category with | some c => c | none => r.category }

/-- FastAPI update_quote (quotes_api/app.py lines 295-367).  The empty-field
check runs before any connection is opened; after the mutation the row is
re-read and annotated with the per-user favorite flag. -/
def update_quote (db : QuotesDB) (qid : Nat) (u : QuoteUpdate) (userId : Option String) :
    ApiResp QuoteOut QuotesDB :=
  if u.isEmptyData then
    { res := Res.err ApiErr.badRequest, st := db, opened := false, closed := false }
  else
    match findQuote db qid with
    | none => { res := Res.err ApiErr.notFound, st := db, opened := true, closed := true }
    | some _ =>
      let db2 : QuotesDB :=
        { db with quotes := db.quotes.map (fun r => if r.id == qid then applyQuoteUpdate r u else r) }
      match findQuote db2 qid with
      | none => { res := Res.err ApiErr.internal, st := db2, opened := true, closed := false }
      | some q =>
        let fav := if truthy userId then favPair db2 qid (userId.getD "") else false
        { res := Res.ok (q.withFav fav), st := db2, opened := true, closed := true }

/-- FastAPI delete_quote (quotes_api/app.py lines 370-403).  DELETE FROM quotes
WHERE id = ?.  The favorites schema declares ON DELETE CASCADE, but
get_db_connection (lines 42-46) never issues PRAGMA foreign_keys = ON and
SQLite leaves foreign-key enforcement off by default, so the statement removes
only the quotes rows and the favorites table is untouched. -/
def delete_quote (db : QuotesDB) (qid : Nat) : ApiResp Unit QuotesDB :=
  match findQuote db qid with
  | none => { res := Res.err ApiErr.notFound, st := db, opened := true, closed := true }
  | some _ =>
    { res := Res.ok (), st := { db with quotes := db.quotes.filter (fun r => !(r.id == qid)) },
      opened := true, closed := true }

/-- INSERT INTO favorites (quote_id, user_id): the new row takes the favorites
AUTOINCREMENT id and is appended. -/
def insertFav (db : QuotesDB) (qid : Nat) (uid : String) : QuotesDB :=
  { db with favorites := db.favorites ++ [⟨db.nextFavId, qid, uid⟩], nextFavId := db.nextFavId + 1 }

/-- FastAPI add_favorite (quotes_api/app.py lines 410-451).  404 when the
quote is absent; the INSERT hitting UNIQUE(quote_id, user_id) raises
IntegrityError which the handler swallows, so a duplicate pair is success. -/
def add_favorite (db : QuotesDB) (qid : Nat) (uid : String) : ApiResp Bool QuotesDB :=
  match findQuote db qid with
  | none => { res := Res.err ApiErr.notFound, st := db, opened := true, closed := true }
  | some _ =>
    if favPair db qid uid then
      { res := Res.ok true, st := db, opened := true, closed := true }
    else
      { res := Res.ok true, st := insertFav db qid uid, opened := true, closed := true }

/-- FastAPI remove_favorite (quotes_api/app.py lines 454-482).  DELETE FROM
favorites for the pair; success reports cursor.rowcount > 0. -/
def remove_favorite (db : QuotesDB) (qid : Nat) (uid : String) : ApiResp Bool QuotesDB :=
  let remaining := db.favorites.filter (fun f => !(f.quoteId == qid && f.userId == uid))
  { res := Res.ok (decide (remaining.length < db.favorites.length)),
    st := { db with favorites := remaining }, opened := true, closed := true }

/-- FastAPI get_favorite_quotes (quotes_api/app.py lines 485-516).  SELECT q.*
FROM quotes q JOIN favorites f ON q.id = f.quote_id WHERE f.user_id = ?; every
returned quote is flagged is_favorite = true. -/
def get_favorite_quotes (db : QuotesDB) (uid : String) : ApiResp (List QuoteOut) QuotesDB :=
  let outs := (db.quotes.filter (fun q => favPair db q.id uid)).map (fun q => q.withFav true)
  { res := Res.ok outs, st := db, opened := true, closed := true }

/-- Statements the batch-create endpoint issues against the connection, in
order, plus the commit and close calls. -/
inductive DbEvent where
  | insertQuote : QuoteCreate → DbEvent
  | selectQuote : Nat → DbEvent
  | commitTx : DbEvent
  | closeConn : DbEvent
deriving DecidableEq

/-- Loop body of create_quotes_batch: per payload one INSERT and one re-read
SELECT of the lastrowid.  The re-read cannot miss the row just appended, so
the getD fallback (Python would raise into the generic 500 handler there) is
never taken. -/
def batchLoop (db : QuotesDB) (qs : List QuoteCreate) :
    List QuoteOut × QuotesDB × List DbEvent :=
  match qs with
  | [] => ([], db, [])
  | q :: rest =>
    let row := (insertQuoteRow db q).1
    let db2 := (insertQuoteRow db q).2
    let fetched := (findQuote db2 row.id).getD row
    let t := batchLoop db2 rest
    (fetched.withFav false :: t.1, t.2.1,
     DbEvent.insertQuote q :: DbEvent.selectQuote row.id :: t.2.2)

/-- FastAPI create_quotes_batch (quotes_api/app.py lines 170-209): inserts all
payloads in list order, collecting the re-read rows, then commits once and
closes. -/
def create_quotes_batch (db : QuotesDB) (qs : List QuoteCreate) :
    List QuoteOut × QuotesDB × List DbEvent :=
  let t := batchLoop db qs
  (t.1, t.2.1, t.2.2 ++ [DbEvent.commitTx, DbEvent.closeConn])

/-! ## Concrete states used by the closed theorems -/

/-- Empty users store as init_db creates it (AUTOINCREMENT starts at 1). -/
def dbU0 : UsersDB := ⟨[], 1⟩

/-- Users store holding one user bob with age 30. -/
def dbU1 : UsersDB := ⟨[⟨1, "bob", "old@x.com", some 30⟩], 2⟩

/-- Quotes store holding quote 1, favorited by user u. -/
def dbQ1 : QuotesDB := ⟨[⟨"t", "a", none, none, 1⟩], [⟨1, 1, "u"⟩], 2, 2⟩

/-- Two concrete quote payloads for exercising the batch-create endpoint. -/
def qsBatch : List QuoteCreate := [⟨"t1", "a1", none, none⟩, ⟨"t2", "a2", none, some "c"⟩]

/-! ## Claim theorems -/

/-- Claim C1: deleting quote 1, which user u has favorited, succeeds but
leaves the favorites row (quote_id = 1, user_id = u) in the table: the
declared ON DELETE CASCADE never fires because the connection does not enable
SQLite foreign-key enforcement.  A subsequent ListFavorites for u nevertheless
excludes the quote, because the favorites listing joins through the quotes
table. -/
theorem delete_quote_orphans_favorites :
    (delete_quote dbQ1 1).res = Res.ok () ∧
    (delete_quote dbQ1 1).st.quotes = [] ∧
    (delete_quote dbQ1 1).st.favorites = [⟨1, 1, "u"⟩] ∧
    (get_favorite_quotes (delete_quote dbQ1 1).st "u").res = Res.ok [] := by
  decide

/-- Claim C2, counterexample: creating a user whose username is already taken
returns Conflict from the IntegrityError handler of both user services after
opening a connection, and on that path conn.close() is never reached. -/
theorem create_user_conflict_skips_close :
    (flask_create_user dbU1 ⟨some "bob", some "b@x.com", none⟩).status = 409 ∧
    (flask_create_user dbU1 ⟨some "bob", some "b@x.com", none⟩).opened = true ∧
    (flask_create_user dbU1 ⟨some "bob", some "b@x.com", none⟩).closed = false ∧
    (fastapi_create_user dbU1 ⟨"bob", "b@x.com", none⟩).res = Res.err ApiErr.conflict ∧
    (fastapi_create_user dbU1 ⟨"bob", "b@x.com", none⟩).opened = true ∧
    (fastapi_create_user dbU1 ⟨"bob", "b@x.com", none⟩).closed = false := by
  decide

/-- Claim C3, counterexample: the Flask update_user applies the mutation and
re-reading the store shows the updated row, but its 200 response body is only
a message object, not the post-update record. -/
theorem flask_update_returns_message_only :
    (flask_update_user dbU1 1 ⟨some "new@x.com", none, false⟩).status = 200 ∧
    (flask_update_user dbU1 1 ⟨some "new@x.com", none, false⟩).body
        = [("message", JVal.s "User updated successfully")] ∧
    findUser (flask_update_user dbU1 1 ⟨some "new@x.com", none, false⟩).st 1
        = some ⟨1, "bob", "new@x.com", some 30⟩ ∧
    ¬ (flask_update_user dbU1 1 ⟨some "new@x.com", none, false⟩).body
        = userRowJ ⟨1, "bob", "new@x.com", some 30⟩ := by
  decide

/-- Claim C6, counterexample: the Flask create_user performs no range check on
age: a payload with age 200 (outside 0-120) is inserted and answered 201
rather than rejected as a validation failure. -/
theorem flask_create_accepts_out_of_range_age :
    (flask_create_user dbU0 ⟨some "bob", some "b@x.com", some 200⟩).status = 201 ∧
    (flask_create_user dbU0 ⟨some "bob", some "b@x.com", some 200⟩).st.rows
        = [⟨1, "bob", "b@x.com", some 200⟩] := by
  decide

/-- Claim C7: an update whose payload sets no recognized field is answered 400
by all three update handlers, for every id and every store state, and the
decision is taken before any connection is opened, so it can never be
NotFound. -/
theorem empty_update_is_bad_request (udb : UsersDB) (qdb : QuotesDB) (uid qid : Nat)
    (uopt : Option String) (b : Bool) :
    ((flask_update_user udb uid ⟨none, none, b⟩).status = 400 ∧
     (flask_update_user udb uid ⟨none, none, b⟩).opened = false) ∧
    ((fastapi_update_user udb uid ⟨none, none⟩).res = Res.err ApiErr.badRequest ∧
     (fastapi_update_user udb uid ⟨none, none⟩).opened = false) ∧
    ((update_quote qdb qid ⟨none, none, none, none⟩ uopt).res = Res.err ApiErr.badRequest ∧
     (update_quote qdb qid ⟨none, none, none, none⟩ uopt).opened = false) := by
  refine ⟨?_, ⟨rfl, rfl⟩, ⟨rfl, rfl⟩⟩
  cases b <;> exact ⟨rfl, rfl⟩

/-- Claim C9: when no user_id is supplied, every quote returned by
get_all_quotes, get_quote and update_quote carries is_favorite = false, no
matter which favorites rows exist in the store. -/
theorem quotes_without_user_id_not_favorite (db : QuotesDB) (qid : Nat) (u : QuoteUpdate) :
    (∀ outs, (get_all_quotes db none).res = Res.ok outs →
        ∀ o ∈ outs, o.isFavorite = false) ∧
    (∀ o, (get_quote db qid none).res = Res.ok o → o.isFavorite = false) ∧
    (∀ o, (update_quote db qid u none).res = Res.ok o → o.isFavorite = false) := by
  refine ⟨?_, ?_, ?_⟩
  · intro outs h o ho
    simp only [get_all_quotes, truthy] at h
    cases h
    obtain ⟨q, _, rfl⟩ := List.mem_map.mp ho
    rfl
  · intro o h
    unfold get_quote at h
    split at h
    · exact absurd h (by simp)
    · simp only [truthy, ApiResp.mk.injEq] at h
      cases h
      rfl
  · intro o h
    unfold update_quote at h
    split at h
    · exact absurd h (by simp)
    · split at h
      · exact absurd h (by simp)
      · split at h
        · rename_i ht
          exact absurd ht (by decide)
        · simp only [] at h
          split at h
          · exact absurd h (by simp)
          · injection h with h2
            subst h2
            rfl

/-- Claim C9, witness: in the store dbQ1, where user u has favorited quote 1,
reading without a user_id still reports the quote as not favorite. -/
theorem quotes_without_user_id_not_favorite_witness :
    (QuoteRow.withFav ⟨"t", "a", none, none, 1⟩ false).isFavorite = false :=
  (quotes_without_user_id_not_favorite dbQ1 1 ⟨some "x", none, none, none⟩).2.1
    (QuoteRow.withFav ⟨"t", "a", none, none, 1⟩ false) (by decide)

/-! ## Helper lemmas about the list-level store operations -/

/-- Removing the elements satisfying p shortens the list exactly when some
element satisfied p (the cursor.rowcount > 0 test of the DELETE). -/
theorem length_filter_not_lt_iff {α : Type} (p : α → Bool) (l : List α) :
    (l.filter (fun a => !(p a))).length < l.length ↔ 0 < (l.filter p).length := by
  have h := List.length_eq_length_filter_add (l := l) p
  have e : l.filter (fun a => !(p a)) = l.filter (fun a => !p a) := rfl
  rw [e] at *
  omega

/-- After deleting the rows satisfying p, no row satisfying p remains. -/
theorem filter_not_filter_nil {α : Type} (p : α → Bool) (l : List α) :
    (l.filter (fun a => !(p a))).filter p = [] := by
  induction l with
  | nil => rfl
  | cons x xs ih => by_cases h : p x = true <;> simp [List.filter_cons, h, ih]

/-- The favorites pair count is positive exactly when the pair-existence test
(the UNIQUE-constraint condition) holds. -/
theorem favCount_pos_iff (db : QuotesDB) (qid : Nat) (uid : String) :
    0 < favCount db qid uid ↔ favPair db qid uid = true := by
  unfold favCount favPair
  rw [← List.countP_eq_length_filter, List.countP_pos_iff, List.any_eq_true]

/-- Looking up a freshly appended row by its id finds that row, provided every
prior row has a different id (which the AUTOINCREMENT invariant guarantees). -/
theorem find?_fresh_append (l : List QuoteRow) (row : QuoteRow)
    (h : ∀ r ∈ l, r.id ≠ row.id) :
    (l ++ [row]).find? (fun r => r.id == row.id) = some row := by
  induction l with
  | nil => simp
  | cons x xs ih =>
    rw [List.cons_append, List.find?_cons_of_neg _ (by simp [h x (List.mem_cons_self x xs)])]
    exact ih (fun r hr => h r (List.mem_cons_of_mem _ hr))

/-- Claim C8: ClearFavorite never fails; it reports success exactly when a
(quote_id, user_id) row existed, and afterwards no such row remains. -/
theorem remove_favorite_reports_removal (db : QuotesDB) (qid : Nat) (uid : String) :
    (remove_favorite db qid uid).res = Res.ok (decide (0 < favCount db qid uid)) ∧
    (remove_favorite db qid uid).st.favorites
        = db.favorites.filter (fun f => !(f.quoteId == qid && f.userId == uid)) ∧
    favCount (remove_favorite db qid uid).st qid uid = 0 ∧
    (remove_favorite db qid uid).closed = true := by
  refine ⟨?_, rfl, ?_, rfl⟩
  · unfold remove_favorite
    exact congrArg Res.ok (decide_eq_decide.mpr (length_filter_not_lt_iff _ _))
  · unfold remove_favorite favCount
    simp only []
    rw [filter_not_filter_nil]
    rfl

/-- Looking up an id after the UPDATE statement rewrote the matching rows
returns the updated image of the row the lookup would have found before. -/
theorem find?_update_map (rows : List UserRow) (uid : Nat) (u : UserUpdate) :
    (rows.map (fun r => if r.id == uid then applyUserUpdate r u else r)).find?
        (fun r => r.id == uid)
      = (rows.find? (fun r => r.id == uid)).map (fun r => applyUserUpdate r u) := by
  induction rows with
  | nil => rfl
  | cons r rs ih =>
    by_cases h : (r.id == uid) = true
    · rw [List.map_cons, if_pos h, List.find?_cons, List.find?_cons,
          show ((applyUserUpdate r u).id == uid) = true from h, h]
      rfl
    · have hf : (r.id == uid) = false := by simpa using h
      rw [List.map_cons, if_neg h, List.find?_cons, List.find?_cons, hf]
      exact ih

/-- Evaluation of the FastAPI update_user on the path where fields were
supplied and the id exists: the handler mutates the matching rows and answers
with the re-read row, which is the updated image of the prior row. -/
theorem fastapi_update_user_found (db : UsersDB) (uid : Nat) (u : UserUpdate) (old : UserRow)
    (hne : u.isEmptyData = false) (hold : findUser db uid = some old) :
    fastapi_update_user db uid u
      = { res := Res.ok (applyUserUpdate old u),
          st := ⟨db.rows.map (fun r => if r.id == uid then applyUserUpdate r u else r), db.nextId⟩,
          opened := true, closed := true } := by
  have h2 : findUser ⟨db.rows.map (fun r => if r.id == uid then applyUserUpdate r u else r),
      db.nextId⟩ uid = some (applyUserUpdate old u) := by
    unfold findUser
    simp only []
    rw [find?_update_map]
    unfold findUser at hold
    rw [hold]
    rfl
  unfold fastapi_update_user
  rw [if_neg (by simp [hne]), hold]
  simp only []
  rw [h2]

/-- Quote-side analogue of the update lookup lemma: after the UPDATE statement
rewrote the matching quote rows, looking the id up returns the updated image
of the row the lookup would have found before. -/
theorem find?_quote_update_map (rows : List QuoteRow) (qid : Nat) (u : QuoteUpdate) :
    (rows.map (fun r => if r.id == qid then applyQuoteUpdate r u else r)).find?
        (fun r => r.id == qid)
      = (rows.find? (fun r => r.id == qid)).map (fun r => applyQuoteUpdate r u) := by
  induction rows with
  | nil => rfl
  | cons r rs ih =>
    by_cases h : (r.id == qid) = true
    · rw [List.map_cons, if_pos h, List.find?_cons, List.find?_cons,
          show ((applyQuoteUpdate r u).id == qid) = true from h, h]
      rfl
    · have hf : (r.id == qid) = false := by simpa using h
      rw [List.map_cons, if_neg h, List.find?_cons, List.find?_cons, hf]
      exact ih

/-- On the path where fields were supplied and the quote exists, update_quote
opens a connection and closes it before returning: the re-read of the updated
row cannot miss, so the generic 500 branch is never taken. -/
theorem update_quote_found_flags (db : QuotesDB) (qid : Nat) (u : QuoteUpdate)
    (userId : Option String) (old : QuoteRow)
    (hne : u.isEmptyData = false) (hold : findQuote db qid = some old) :
    (update_quote db qid u userId).opened = true ∧
    (update_quote db qid u userId).closed = true := by
  have h2 : findQuote { db with quotes := db.quotes.map (fun r => if r.id == qid then applyQuoteUpdate r u else r) } qid = some (applyQuoteUpdate old u) := by
    unfold findQuote
    simp only []
    rw [find?_quote_update_map]
    unfold findQuote at hold
    rw [hold]
    rfl
  unfold update_quote
  rw [if_neg (by simp [hne]), hold]
  simp only []
  rw [h2]
  exact ⟨rfl, rfl⟩

/-- Claim C2, amended: every modelled read, update, delete and favorite
operation closes its connection on every path where it opened one — in
particular the three Update handlers close on both the not-found and the
success path — and so do the create handlers on the success path, but the
Conflict (duplicate-username) path of Create in both user services returns
from the IntegrityError handler without closing the connection it opened (and
paths that fail validation before touching the store open no connection). -/
theorem connection_close_paths (udb : UsersDB) (qdb : QuotesDB) (uids : Option String)
    (qid uid : Nat) (fuid : String) (un em : String) (age : Option Int) (u : UserCreate)
    (fu : FlaskUserUpdate) (uu : UserUpdate) (qu : QuoteUpdate) :
    ((get_all_quotes qdb uids).opened = true ∧ (get_all_quotes qdb uids).closed = true) ∧
    (get_quote qdb qid uids).closed = true ∧
    (delete_quote qdb qid).closed = true ∧
    (add_favorite qdb qid fuid).closed = true ∧
    (remove_favorite qdb qid fuid).closed = true ∧
    ((flask_create_user udb ⟨some un, some em, age⟩).opened = true ∧
     (flask_create_user udb ⟨some un, some em, age⟩).closed = !usernameTaken udb un) ∧
    (flask_create_user udb ⟨none, some em, age⟩).opened = false ∧
    ((fastapi_create_user udb u).opened = true ∧
     (fastapi_create_user udb u).closed = !usernameTaken udb u.username) ∧
    ((flask_update_user udb uid fu).closed = (flask_update_user udb uid fu).opened) ∧
    ((fastapi_update_user udb uid uu).closed = (fastapi_update_user udb uid uu).opened) ∧
    ((update_quote qdb qid qu uids).closed = (update_quote qdb qid qu uids).opened) ∧
    (fu.isEmptyData = false → (fu.email.isNone && fu.age.isNone) = false →
        (flask_update_user udb uid fu).opened = true ∧
        (flask_update_user udb uid fu).closed = true) ∧
    (uu.isEmptyData = false →
        (fastapi_update_user udb uid uu).opened = true ∧
        (fastapi_update_user udb uid uu).closed = true) ∧
    (qu.isEmptyData = false →
        (update_quote qdb qid qu uids).opened = true ∧
        (update_quote qdb qid qu uids).closed = true) := by
  refine ⟨⟨rfl, rfl⟩, ?_, ?_, ?_, rfl, ?_, rfl, ⟨?_, ?_⟩, ?_, ?_, ?_, ?_, ?_, ?_⟩
  · unfold get_quote
    split <;> rfl
  · unfold delete_quote
    split <;> rfl
  · unfold add_favorite
    split
    · rfl
    · split <;> rfl
  · by_cases h : usernameTaken udb un = true <;> simp [flask_create_user, h]
  · unfold fastapi_create_user
    split
    · rfl
    · simp only []
      split <;> rfl
  · by_cases h : usernameTaken udb u.username = true
    · simp [fastapi_create_user, h]
    · have hf : usernameTaken udb u.username = false := by simpa using h
      unfold fastapi_create_user
      rw [if_neg h]
      simp only []
      split
      · rw [hf]
        rfl
      · rename_i heq
        exfalso
        unfold findUser at heq
        have hmem : (⟨udb.nextId, u.username, u.email, u.age⟩ : UserRow)
            ∈ udb.rows ++ [⟨udb.nextId, u.username, u.email, u.age⟩] :=
          List.mem_append_right _ (List.mem_singleton_self _)
        have hx := List.find?_eq_none.mp heq _ hmem
        simp at hx
  · unfold flask_update_user
    split
    · rfl
    · split
      · rfl
      · split <;> rfl
  · by_cases hE : uu.isEmptyData = true
    · unfold fastapi_update_user
      rw [if_pos hE]
    · cases hold : findUser udb uid with
      | none =>
        unfold fastapi_update_user
        rw [if_neg hE, hold]
      | some old =>
        rw [fastapi_update_user_found udb uid uu old (by simpa using hE) hold]
  · by_cases hE : qu.isEmptyData = true
    · unfold update_quote
      rw [if_pos hE]
    · cases hold : findQuote qdb qid with
      | none =>
        unfold update_quote
        rw [if_neg hE, hold]
      | some old =>
        obtain ⟨ho, hc⟩ := update_quote_found_flags qdb qid qu uids old (by simpa using hE) hold
        rw [ho, hc]
  · intro h1 h2
    unfold flask_update_user
    rw [if_neg (by simp [h1]), if_neg (by simp [h2])]
    cases hold : findUser udb uid <;> exact ⟨rfl, rfl⟩
  · intro h1
    cases hold : findUser udb uid with
    | none =>
      unfold fastapi_update_user
      rw [if_neg (by simp [h1]), hold]
      exact ⟨rfl, rfl⟩
    | some old =>
      rw [fastapi_update_user_found udb uid uu old h1 hold]
      exact ⟨rfl, rfl⟩
  · intro h1
    cases hold : findQuote qdb qid with
    | none =>
      unfold update_quote
      rw [if_neg (by simp [h1]), hold]
      exact ⟨rfl, rfl⟩
    | some old =>
      exact update_quote_found_flags qdb qid qu uids old h1 hold

/-- Claim C2, witness: on the concrete stores dbU1 and dbQ1, updating an
existing record through each of the three Update handlers opens a connection
and closes it before returning. -/
theorem connection_close_paths_witness :
    ((flask_update_user dbU1 1 ⟨some "w@x.com", none, false⟩).opened = true ∧
     (flask_update_user dbU1 1 ⟨some "w@x.com", none, false⟩).closed = true) ∧
    ((fastapi_update_user dbU1 1 ⟨some "w@x.com", none⟩).opened = true ∧
     (fastapi_update_user dbU1 1 ⟨some "w@x.com", none⟩).closed = true) ∧
    ((update_quote dbQ1 1 ⟨some "nt", none, none, none⟩ none).opened = true ∧
     (update_quote dbQ1 1 ⟨some "nt", none, none, none⟩ none).closed = true) := by
  obtain ⟨-, -, -, -, -, -, -, -, -, -, -, h12, h13, h14⟩ :=
    connection_close_paths dbU1 dbQ1 none 1 1 "u" "x" "y@x.com" none
      ⟨"zed", "z@x.com", none⟩ ⟨some "w@x.com", none, false⟩ ⟨some "w@x.com", none⟩
      ⟨some "nt", none, none, none⟩
  exact ⟨h12 (by decide) (by decide), h13 (by decide), h14 (by decide)⟩

/-- Claim C3, amended: the FastAPI update_user answers with the post-update
record re-read from the store (which equals the supplied fields applied to
the prior row), while the Flask update_user performs the same mutation but
answers 200 with only a success message, never the record. -/
theorem update_user_refetch_amended (db : UsersDB) (uid : Nat) (u : UserUpdate)
    (fu : FlaskUserUpdate) :
    (∀ r, (fastapi_update_user db uid u).res = Res.ok r →
        findUser (fastapi_update_user db uid u).st uid = some r) ∧
    (∀ old, findUser db uid = some old → u.isEmptyData = false →
        (fastapi_update_user db uid u).res = Res.ok (applyUserUpdate old u)) ∧
    ((flask_update_user db uid fu).status = 200 →
        (flask_update_user db uid fu).body = [("message", JVal.s "User updated successfully")]) := by
  refine ⟨?_, ?_, ?_⟩
  · intro r h
    by_cases hE : u.isEmptyData = true
    · unfold fastapi_update_user at h
      rw [if_pos hE] at h
      exact absurd h (by simp)
    · have hne : u.isEmptyData = false := by simpa using hE
      cases hold : findUser db uid with
      | none =>
        unfold fastapi_update_user at h
        rw [if_neg hE, hold] at h
        exact absurd h (by simp)
      | some old =>
        rw [fastapi_update_user_found db uid u old hne hold] at h ⊢
        injection h with h2
        subst h2
        unfold findUser
        simp only []
        rw [find?_update_map]
        unfold findUser at hold
        rw [hold]
        rfl
  · intro old hold hne
    rw [fastapi_update_user_found db uid u old hne hold]
  · by_cases hE : fu.isEmptyData = true
    · intro h
      unfold flask_update_user at h
      rw [if_pos hE] at h
      exact absurd h (by simp)
    · by_cases hE2 : (fu.email.isNone && fu.age.isNone) = true
      · intro h
        unfold flask_update_user at h
        rw [if_neg hE, if_pos hE2] at h
        exact absurd h (by simp)
      · cases hold : findUser db uid with
        | none =>
          intro h
          unfold flask_update_user at h
          rw [if_neg hE, if_neg hE2, hold] at h
          exact absurd h (by simp)
        | some old =>
          intro _
          unfold flask_update_user
          rw [if_neg hE, if_neg hE2, hold]

/-- Claim C3, witness: updating user 1 of dbU1 with a new email through the
FastAPI service answers with the persisted post-update record. -/
theorem update_user_refetch_amended_witness :
    (fastapi_update_user dbU1 1 ⟨some "n@x.com", none⟩).res
        = Res.ok ⟨1, "bob", "n@x.com", some 30⟩ :=
  (update_user_refetch_amended dbU1 1 ⟨some "n@x.com", none⟩ ⟨none, none, false⟩).2.1
    ⟨1, "bob", "old@x.com", some 30⟩ (by decide) (by decide)

/-- Claim C5: creating a user whose username is already stored yields Conflict
in both user services; creating one with a fresh username succeeds, and the
issued id is the AUTOINCREMENT counter value, which is positive and distinct
from every previously issued id (all of which lie below the counter). -/
theorem create_user_conflict_or_fresh_id (db : UsersDB) (un em : String) (age : Option Int)
    (u : UserCreate) (issued : List Nat)
    (hpos : 1 ≤ db.nextId) (hiss : ∀ i ∈ issued, i < db.nextId) :
    (usernameTaken db un = true →
        (flask_create_user db ⟨some un, some em, age⟩).status = 409) ∧
    (usernameTaken db un = false →
        (flask_create_user db ⟨some un, some em, age⟩).status = 201 ∧
        (flask_create_user db ⟨some un, some em, age⟩).body
            = [("message", JVal.s "User created successfully"),
               ("user_id", JVal.n (Int.ofNat db.nextId))] ∧
        0 < db.nextId ∧ db.nextId ∉ issued) ∧
    (usernameTaken db u.username = true →
        (fastapi_create_user db u).res = Res.err ApiErr.conflict) ∧
    (usernameTaken db u.username = false →
        ∃ r, (fastapi_create_user db u).res = Res.ok r ∧
          r.id = db.nextId ∧ 0 < r.id ∧ r.id ∉ issued) := by
  refine ⟨?_, ?_, ?_, ?_⟩
  · intro h
    simp [flask_create_user, h]
  · intro h
    refine ⟨?_, ?_, hpos, fun hmem => absurd (hiss _ hmem) (Nat.lt_irrefl _)⟩ <;>
      simp [flask_create_user, h]
  · intro h
    simp [fastapi_create_user, h]
  · intro h
    unfold fastapi_create_user
    rw [if_neg (by simp [h])]
    simp only []
    split
    · rename_i r heq
      have hid : r.id = db.nextId := by
        unfold findUser at heq
        have hb := List.find?_some heq
        simpa using hb
      exact ⟨r, rfl, hid, by rw [hid]; exact hpos,
             by rw [hid]; exact fun hmem => absurd (hiss _ hmem) (Nat.lt_irrefl _)⟩
    · rename_i heq
      exfalso
      unfold findUser at heq
      have hmem : (⟨db.nextId, u.username, u.email, u.age⟩ : UserRow)
          ∈ db.rows ++ [⟨db.nextId, u.username, u.email, u.age⟩] :=
        List.mem_append_right _ (List.mem_singleton_self _)
      have hx := List.find?_eq_none.mp heq _ hmem
      simp at hx

/-- Claim C5, witness: in dbU1 (user bob stored, counter at 2, id 1 already
issued), re-creating bob is 409 while creating carol succeeds with the fresh
positive id 2. -/
theorem create_user_conflict_or_fresh_id_witness :
    (flask_create_user dbU1 ⟨some "bob", some "c@x.com", none⟩).status = 409 ∧
    (∃ r, (fastapi_create_user dbU1 ⟨"carol", "c@x.com", none⟩).res = Res.ok r ∧
        r.id = dbU1.nextId ∧ 0 < r.id ∧ r.id ∉ [1]) :=
  ⟨(create_user_conflict_or_fresh_id dbU1 "bob" "c@x.com" none ⟨"carol", "c@x.com", none⟩ [1]
      (by decide) (by decide)).1 (by decide),
   (create_user_conflict_or_fresh_id dbU1 "bob" "c@x.com" none ⟨"carol", "c@x.com", none⟩ [1]
      (by decide) (by decide)).2.2.2 (by decide)⟩

/-- Claim C4: SetFavorite fails with NotFound when the quote is absent; when
the quote exists, two successive calls with the same (quote_id, user_id) both
report success and leave exactly one favorites row for the pair (given the
UNIQUE-constraint invariant that at most one such row was stored before). -/
theorem add_favorite_idempotent (db : QuotesDB) (qid : Nat) (uid : String) :
    (findQuote db qid = none → (add_favorite db qid uid).res = Res.err ApiErr.notFound) ∧
    (∀ q, findQuote db qid = some q → favCount db qid uid ≤ 1 →
        (add_favorite db qid uid).res = Res.ok true ∧
        (add_favorite (add_favorite db qid uid).st qid uid).res = Res.ok true ∧
        favCount (add_favorite (add_favorite db qid uid).st qid uid).st qid uid = 1) := by
  constructor
  · intro h
    unfold add_favorite
    rw [h]
  · intro q hq hle
    by_cases hp : favPair db qid uid = true
    · have h1 : add_favorite db qid uid
          = { res := Res.ok true, st := db, opened := true, closed := true } := by
        unfold add_favorite
        rw [hq]
        simp only []
        rw [if_pos hp]
      have hpos := (favCount_pos_iff db qid uid).mpr hp
      refine ⟨by rw [h1], ?_, ?_⟩
      · rw [h1]
        simp only []
        rw [h1]
      · rw [h1]
        simp only []
        rw [h1]
        simp only []
        omega
    · have hf : favPair db qid uid = false := by simpa using hp
      have h1 : add_favorite db qid uid
          = { res := Res.ok true, st := insertFav db qid uid, opened := true, closed := true } := by
        unfold add_favorite
        rw [hq]
        simp only []
        rw [if_neg hp]
      have hp2 : favPair (insertFav db qid uid) qid uid = true := by
        unfold favPair insertFav
        simp only []
        rw [List.any_append]
        simp
      have h2 : add_favorite (insertFav db qid uid) qid uid
          = { res := Res.ok true, st := insertFav db qid uid, opened := true, closed := true } := by
        unfold add_favorite
        rw [show findQuote (insertFav db qid uid) qid = some q from hq]
        simp only []
        rw [if_pos hp2]
      have hc0 : favCount db qid uid = 0 := by
        by_contra hne
        exact absurd ((favCount_pos_iff db qid uid).mp (Nat.pos_of_ne_zero hne)) (by simp [hf])
      refine ⟨by rw [h1], ?_, ?_⟩
      · rw [h1]
        simp only []
        rw [h2]
      · rw [h1]
        simp only []
        rw [h2]
        simp only []
        unfold favCount insertFav
        simp only []
        rw [List.filter_append, List.length_append]
        have hone : (List.filter (fun f => f.quoteId == qid && f.userId == uid)
            [(⟨db.nextFavId, qid, uid⟩ : FavRow)]).length = 1 := by simp
        rw [hone]
        unfold favCount at hc0
        omega

/-- Claim C4, witness: in dbQ1, marking the missing quote 5 is NotFound, and
marking quote 1 twice for user v succeeds twice leaving one favorites row. -/
theorem add_favorite_idempotent_witness :
    (add_favorite dbQ1 5 "u").res = Res.err ApiErr.notFound ∧
    ((add_favorite dbQ1 1 "v").res = Res.ok true ∧
     (add_favorite (add_favorite dbQ1 1 "v").st 1 "v").res = Res.ok true ∧
     favCount (add_favorite (add_favorite dbQ1 1 "v").st 1 "v").st 1 "v" = 1) :=
  ⟨(add_favorite_idempotent dbQ1 5 "u").1 (by decide),
   (add_favorite_idempotent dbQ1 1 "v").2 ⟨"t", "a", none, none, 1⟩ (by decide) (by decide)⟩

/-- Claim C6, amended: the FastAPI service rejects an out-of-range age (and a
missing username or email) at model validation before any insert, while the
Flask service checks only that the username and email keys are present and
inserts any supplied age unchanged (unless the username is taken). -/
theorem create_age_validation_amended (p : RawUserPayload) (db : UsersDB)
    (un em : String) (a : Int) :
    (∀ a0, p.age = some a0 → (a0 < 0 ∨ 120 < a0) → validateUserCreate p = none) ∧
    (p.username = none ∨ p.email = none → validateUserCreate p = none) ∧
    ((flask_create_user db ⟨some un, some em, some a⟩).status = 409 ∨
     ((flask_create_user db ⟨some un, some em, some a⟩).status = 201 ∧
      (flask_create_user db ⟨some un, some em, some a⟩).st.rows
          = db.rows ++ [⟨db.nextId, un, em, some a⟩])) := by
  refine ⟨?_, ?_, ?_⟩
  · intro a0 ha hout
    obtain ⟨pu, pe, pa⟩ := p
    simp only at ha
    subst ha
    unfold validateUserCreate
    cases pu with
    | none => rfl
    | some un2 =>
      cases pe with
      | none => rfl
      | some em2 =>
        simp only []
        split
        · simp [(by omega : ¬(0 ≤ a0 ∧ a0 ≤ 120))]
          omega
        · rfl
  · intro h
    obtain ⟨pu, pe, pa⟩ := p
    unfold validateUserCreate
    rcases h with h | h
    · simp only at h
      subst h
      rfl
    · simp only at h
      subst h
      cases pu <;> rfl
  · by_cases hd : usernameTaken db un = true
    · left
      simp [flask_create_user, hd]
    · right
      constructor <;> simp [flask_create_user, hd]

/-- Claim C6, witness: the payload (bob, b@x.com, age 200) fails FastAPI model
validation, while the Flask service inserts it into the empty store. -/
theorem create_age_validation_amended_witness :
    validateUserCreate ⟨some "bob", some "b@x.com", some 200⟩ = none ∧
    ((flask_create_user dbU0 ⟨some "bob", some "b@x.com", some 200⟩).status = 409 ∨
     ((flask_create_user dbU0 ⟨some "bob", some "b@x.com", some 200⟩).status = 201 ∧
      (flask_create_user dbU0 ⟨some "bob", some "b@x.com", some 200⟩).st.rows
          = dbU0.rows ++ [⟨dbU0.nextId, "bob", "b@x.com", some 200⟩])) :=
  ⟨(create_age_validation_amended ⟨some "bob", some "b@x.com", some 200⟩ dbU0 "bob" "b@x.com"
      200).1 200 rfl (by omega),
   (create_age_validation_amended ⟨some "bob", some "b@x.com", some 200⟩ dbU0 "bob" "b@x.com"
      200).2.2⟩

/-- Inserting a quote preserves the AUTOINCREMENT invariant that every stored
id lies below the counter. -/
theorem insertQuoteRow_wf (db : QuotesDB) (q : QuoteCreate)
    (hwf : ∀ r ∈ db.quotes, r.id < db.nextQuoteId) :
    ∀ r ∈ (insertQuoteRow db q).2.quotes, r.id < (insertQuoteRow db q).2.nextQuoteId := by
  unfold insertQuoteRow
  simp only []
  intro r hr
  rcases List.mem_append.mp hr with hr | hr
  · exact Nat.lt_trans (hwf r hr) (Nat.lt_succ_self _)
  · rw [List.mem_singleton.mp hr]
    exact Nat.lt_succ_self _

/-- The re-read SELECT of the lastrowid after an insert returns exactly the
inserted row, under the AUTOINCREMENT invariant. -/
theorem insertQuoteRow_refetch (db : QuotesDB) (q : QuoteCreate)
    (hwf : ∀ r ∈ db.quotes, r.id < db.nextQuoteId) :
    findQuote (insertQuoteRow db q).2 (insertQuoteRow db q).1.id
      = some (insertQuoteRow db q).1 := by
  unfold insertQuoteRow findQuote
  simp only []
  exact find?_fresh_append db.quotes ⟨q.text, q.author, q.source, q.category, db.nextQuoteId⟩
    (fun r hr => Nat.ne_of_lt (hwf r hr))

/-- Characterisation of the batch-create loop: it appends exactly the created
rows to the store, returns them in payload order flagged not-favorite, and
issues no commit. -/
theorem batchLoop_spec (qs : List QuoteCreate) : ∀ (db : QuotesDB),
    (∀ r ∈ db.quotes, r.id < db.nextQuoteId) →
    (batchLoop db qs).2.1.quotes = db.quotes ++ ((batchLoop db qs).1.map QuoteOut.toRow) ∧
    (batchLoop db qs).1.map (fun o => (o.text, o.author, o.source, o.category))
        = qs.map (fun q => (q.text, q.author, q.source, q.category)) ∧
    (∀ o ∈ (batchLoop db qs).1, o.isFavorite = false) ∧
    (∀ e ∈ (batchLoop db qs).2.2, e ≠ DbEvent.commitTx) := by
  induction qs with
  | nil =>
    intro db hwf
    refine ⟨by simp [batchLoop], rfl, ?_, ?_⟩
    · intro o ho
      simp [batchLoop] at ho
    · intro e he
      simp [batchLoop] at he
  | cons q rest ih =>
    intro db hwf
    have hstep : batchLoop db (q :: rest)
        = ((insertQuoteRow db q).1.withFav false :: (batchLoop (insertQuoteRow db q).2 rest).1,
           (batchLoop (insertQuoteRow db q).2 rest).2.1,
           DbEvent.insertQuote q :: DbEvent.selectQuote (insertQuoteRow db q).1.id
              :: (batchLoop (insertQuoteRow db q).2 rest).2.2) := by
      conv_lhs => rw [batchLoop]
      rw [insertQuoteRow_refetch db q hwf, Option.getD_some]
    obtain ⟨ih1, ih2, ih3, ih4⟩ := ih (insertQuoteRow db q).2 (insertQuoteRow_wf db q hwf)
    rw [hstep]
    refine ⟨?_, ?_, ?_, ?_⟩
    · simp only [List.map_cons]
      rw [ih1]
      show (insertQuoteRow db q).2.quotes ++ _ = _
      unfold insertQuoteRow
      simp only []
      rw [List.append_assoc]
      rfl
    · simp only [List.map_cons]
      rw [ih2]
      rfl
    · intro o ho
      rcases List.mem_cons.mp ho with rfl | ho2
      · rfl
      · exact ih3 o ho2
    · intro e he
      rcases List.mem_cons.mp he with rfl | he2
      · simp
      · rcases List.mem_cons.mp he2 with rfl | he3
        · simp
        · exact ih4 e he3

/-- Claim C10: the batch-create endpoint inserts one row per payload in list
order (the post-state quotes list is the prior one extended by exactly the
created rows), returns the created records in the same order as the input
list with is_favorite = false on each, and its statement trace holds the
inserts followed by exactly one commit and the close. -/
theorem create_quotes_batch_spec (db : QuotesDB) (qs : List QuoteCreate)
    (hwf : ∀ r ∈ db.quotes, r.id < db.nextQuoteId) :
    (create_quotes_batch db qs).2.1.quotes
        = db.quotes ++ ((create_quotes_batch db qs).1.map QuoteOut.toRow) ∧
    (create_quotes_batch db qs).1.map (fun o => (o.text, o.author, o.source, o.category))
        = qs.map (fun q => (q.text, q.author, q.source, q.category)) ∧
    (∀ o ∈ (create_quotes_batch db qs).1, o.isFavorite = false) ∧
    (∃ pre, (create_quotes_batch db qs).2.2 = pre ++ [DbEvent.commitTx, DbEvent.closeConn] ∧
        ∀ e ∈ pre, e ≠ DbEvent.commitTx) := by
  obtain ⟨h1, h2, h3, h4⟩ := batchLoop_spec qs db hwf
  unfold create_quotes_batch
  simp only []
  exact ⟨h1, h2, h3, (batchLoop db qs).2.2, rfl, h4⟩

/-- Claim C10, witness: batch-creating two payloads on dbQ1 satisfies the
batch specification. -/
theorem create_quotes_batch_spec_witness :
    (create_quotes_batch dbQ1 qsBatch).2.1.quotes
        = dbQ1.quotes ++ ((create_quotes_batch dbQ1 qsBatch).1.map QuoteOut.toRow) ∧
    (create_quotes_batch dbQ1 qsBatch).1.map (fun o => (o.text, o.author, o.source, o.category))
        = qsBatch.map (fun q => (q.text, q.author, q.source, q.category)) ∧
    (∀ o ∈ (create_quotes_batch dbQ1 qsBatch).1, o.isFavorite = false) ∧
    (∃ pre, (create_quotes_batch dbQ1 qsBatch).2.2
        = pre ++ [DbEvent.commitTx, DbEvent.closeConn] ∧
        ∀ e ∈ pre, e ≠ DbEvent.commitTx) :=
  create_quotes_batch_spec dbQ1 qsBatch (by decide)
